import Mathlib

/-!
Shallow embedding of the request/response normalization core of
`src/implementations/python/deepseek_mcp_server.py`, together with proofs of
the behavioural properties stated in the specification.

Modelling conventions:
* Decoded JSON / Python values are modelled by `JVal`; Python dictionaries by
  association lists (`Dict`) with unique keys, `dict.get` by `Dict.getJ`
  (absent keys and `None` both map to `JVal.null`, which is faithful because
  the embedded code only inspects such values through truthiness and
  `isinstance` checks), and item assignment `d[k] = v` by `Dict.setKey`.
* Python truthiness (`or`, `if x:`) is `JVal.truthy` / `pyOr`.
* `str(...)` is `pyStr`; `int(time.time())` is an explicit `now : Int`
  argument to the functions that read the clock.
* The HTTP transport (`_chat_or_completion_request`) is an oracle parameter
  `transport : Option String → Dict → Except DeepSeekApiError (JVal × Option Int)`
  receiving the base-url override and the payload and returning either an
  API error or the `(response, stream_chunk_count)` pair; `json.loads` /
  `response.json()` is an oracle `parse : String → Option Json`-style
  parameter (`none` models a raised decode error).
-/

/-- A decoded JSON / Python value as manipulated by the server code. -/
inductive JVal where
  | null : JVal
  | bool : Bool → JVal
  | num : Int → JVal
  | str : String → JVal
  | arr : List JVal → JVal
  | obj : List (String × JVal) → JVal
deriving Repr, Inhabited

/-- A Python dictionary with string keys, as an association list (unique keys,
insertion ordered, like CPython dicts). -/
abbrev Dict := List (String × JVal)

/-- Python truthiness of a value (`bool(v)`). -/
def JVal.truthy : JVal → Bool
  | .null => false
  | .bool b => b
  | .num n => n != 0
  | .str s => !s.isEmpty
  | .arr xs => !xs.isEmpty
  | .obj fs => !fs.isEmpty

/-- Python `a or b`: `a` if truthy, else `b`. -/
def pyOr (a b : JVal) : JVal := if a.truthy then a else b

mutual
/-- Python `repr` of a JSON-like value (used by `str` on containers). -/
def pyRepr : JVal → String
  | .null => "None"
  | .bool b => if b then "True" else "False"
  | .num n => toString n
  | .str s => "\x27" ++ s ++ "\x27"
  | .arr xs => "[" ++ pyReprItems xs ++ "]"
  | .obj fs => "\x7b" ++ pyReprFields fs ++ "\x7d"

/-- Comma-separated reprs of the elements of a list. -/
def pyReprItems : List JVal → String
  | [] => ""
  | [x] => pyRepr x
  | x :: y :: xs => pyRepr x ++ ", " ++ pyReprItems (y :: xs)

/-- Comma-separated reprs of the key/value pairs of a dict. -/
def pyReprFields : List (String × JVal) → String
  | [] => ""
  | [(k, v)] => "\x27" ++ k ++ "\x27: " ++ pyRepr v
  | (k, v) :: y :: xs => "\x27" ++ k ++ "\x27: " ++ pyRepr v ++ ", " ++ pyReprFields (y :: xs)
end

/-- Python `str(v)`: identity on strings, `repr` otherwise (scalars spelled the
Python way). -/
def pyStr : JVal → String
  | .str s => s
  | v => pyRepr v

/-- `d.get(k)` with absent keys and `None` both read as `JVal.null`. -/
def Dict.getJ (d : Dict) (k : String) : JVal := (d.lookup k).getD .null

/-- Python item assignment `d[k] = v`: update in place if the key exists
(keeping its position), else append. -/
def Dict.setKey : Dict → String → JVal → Dict
  | [], k, v => [(k, v)]
  | (k0, v0) :: rest, k, v =>
    if k0 = k then (k0, v) :: rest else (k0, v0) :: Dict.setKey rest k v

/-- Python `d.update(extra)`: set every key of `extra` in order. -/
def Dict.update (d extra : Dict) : Dict :=
  extra.foldl (fun acc kv => acc.setKey kv.1 kv.2) d

/-- Python substring test `needle in hay`. -/
def strContainsSub (hay needle : String) : Bool := decide (needle.data <:+: hay.data)

/-- Python `s.lower()` (character-wise lowering; coincides with `str.lower`
on the ASCII strings the code compares). -/
def pyLower (s : String) : String := String.mk (s.data.map Char.toLower)

/-- Python `s.endswith(suffix)`. -/
def strEndsWith (s suffix : String) : Bool := decide (suffix.data <:+ s.data)

/-- `normalize_base_url`: `value.rstrip("/")`. -/
def normalize_base_url (value : String) : String :=
  String.mk ((value.data.reverse.dropWhile (fun c => c = '/')).reverse)

/-- `build_beta_base_url`: append `/beta` to the normalized base unless it
already ends with it. -/
def build_beta_base_url (base_url : String) : String :=
  let normalized := normalize_base_url base_url
  if strEndsWith normalized "/beta" then normalized
  else normalized ++ "/beta"

/-- `DeepSeekApiError`: message, optional HTTP status, raw payload (`JVal.null`
models Python `None`). -/
structure DeepSeekApiError where
  message : String
  status : Option Int
  payload : JVal
deriving Repr

/-- `RETRIABLE_STATUS_CODES`. -/
def RETRIABLE_STATUS_CODES : List Int := [408, 409, 429, 500, 502, 503, 504]

/-- `DeepSeekClientConfig`. -/
structure DeepSeekClientConfig where
  api_key : String
  base_url : String
  timeout_ms : Int
  default_model : String
  enable_reasoner_fallback : Bool
  fallback_model : String

/-- `DeepSeekApiClient._should_reasoner_fallback`. -/
def should_reasoner_fallback (cfg : DeepSeekClientConfig) (model : String)
    (error : DeepSeekApiError) : Bool :=
  if !cfg.enable_reasoner_fallback then false
  else if model ≠ "deepseek-reasoner" then false
  else if cfg.fallback_model = model then false
  else match error.status with
    | none => true
    | some s => RETRIABLE_STATUS_CODES.contains s

/-- `should_retry_completion_on_beta`: case-insensitive substring heuristic on
`str(error)` (the error message). -/
def should_retry_completion_on_beta (error : DeepSeekApiError) : Bool :=
  let text := pyLower error.message
  ["beta", "base url", "base_url", "/beta"].any (fun token => strContainsSub text token)

/-- `v.get(k)` for a value statically typed `Any` in the source: dict lookup on
dicts, `JVal.null` otherwise (the code only reaches the non-dict case with
well-typed JSON, where the call would not occur). -/
def JVal.getJ : JVal → String → JVal
  | .obj fs, k => Dict.getJ fs k
  | _, _ => .null

/-- `chunk.get("choices", []) or []` followed by `for choice in ...`: the list
of choice values of a chunk. -/
def chunkChoices (chunk : Dict) : List JVal :=
  match pyOr ((chunk.lookup "choices").getD (.arr [])) (.arr []) with
  | .arr xs => xs
  | _ => []

/-- One iteration of the inner loop of `aggregate_chat_chunks` over the
accumulator `(content_parts, reasoning_parts, finish_reason)`. -/
def chatChunkStep (acc : List String × List String × JVal) (choice : JVal) :
    List String × List String × JVal :=
  let delta := pyOr (choice.getJ "delta") (.obj [])
  let acc1 := match delta.getJ "content" with
    | .str text => (acc.1 ++ [text], acc.2.1, acc.2.2)
    | _ => acc
  let acc2 := match delta.getJ "reasoning_content" with
    | .str reasoning => (acc1.1, acc1.2.1 ++ [reasoning], acc1.2.2)
    | _ => acc1
  (acc2.1, acc2.2.1, pyOr (choice.getJ "finish_reason") acc2.2.2)

/-- The double loop of `aggregate_chat_chunks`. -/
def chatLoop (chunks : List Dict) : List String × List String × JVal :=
  chunks.foldl (fun acc chunk => (chunkChoices chunk).foldl chatChunkStep acc)
    ([], [], .null)

/-- The aggregated chat `message` dict (`reasoning_content` is only set when
reasoning fragments appeared). -/
structure ChatMessage where
  role : String
  content : String
  reasoning_content : Option String
deriving Repr, Inhabited

/-- One element of the aggregated `choices` array of a chat response. -/
structure ChatChoice where
  index : Int
  message : ChatMessage
  finish_reason : JVal
deriving Repr, Inhabited

/-- The dict returned by `aggregate_chat_chunks`. -/
structure ChatResponse where
  id : JVal
  object : String
  created : JVal
  model : String
  choices : List ChatChoice
  usage : JVal
deriving Repr, Inhabited

/-- `aggregate_chat_chunks` (`now` models `int(time.time())`). -/
def aggregate_chat_chunks (now : Int) (chunks : List Dict) (fallback_model : String) :
    ChatResponse :=
  match chunks with
  | [] =>
    { id := .str ("chatcmpl-stream-" ++ toString now)
      object := "chat.completion"
      created := .num now
      model := fallback_model
      choices := [{ index := 0
                    message := { role := "assistant", content := "", reasoning_content := none }
                    finish_reason := .null }]
      usage := .null }
  | first :: rest =>
    let last := rest.getLastD first
    let model := pyStr (pyOr (Dict.getJ first "model") (.str fallback_model))
    let acc := chatLoop (first :: rest)
    let message : ChatMessage :=
      { role := "assistant"
        content := String.join acc.1
        reasoning_content := if acc.2.1.isEmpty then none else some (String.join acc.2.1) }
    { id := pyOr (Dict.getJ first "id") (.str ("chatcmpl-stream-" ++ toString now))
      object := "chat.completion"
      created := pyOr (Dict.getJ last "created") (pyOr (Dict.getJ first "created") (.num now))
      model := model
      choices := [{ index := 0, message := message, finish_reason := acc.2.2 }]
      usage := Dict.getJ last "usage" }

/-- One iteration of the inner loop of `aggregate_completion_chunks` over the
accumulator `(text_parts, finish_reason)`. -/
def completionChunkStep (acc : List String × JVal) (choice : JVal) :
    List String × JVal :=
  let acc1 := match choice.getJ "text" with
    | .str delta_text => (acc.1 ++ [delta_text], acc.2)
    | _ => acc
  (acc1.1, pyOr (choice.getJ "finish_reason") acc1.2)

/-- The double loop of `aggregate_completion_chunks`. -/
def completionLoop (chunks : List Dict) : List String × JVal :=
  chunks.foldl (fun acc chunk => (chunkChoices chunk).foldl completionChunkStep acc)
    ([], .null)

/-- One element of the aggregated `choices` array of a completion response. -/
structure CompletionChoice where
  index : Int
  text : String
  finish_reason : JVal
deriving Repr, Inhabited

/-- The dict returned by `aggregate_completion_chunks`. -/
structure CompletionResponse where
  id : JVal
  object : String
  created : JVal
  model : String
  choices : List CompletionChoice
  usage : JVal
deriving Repr, Inhabited

/-- `aggregate_completion_chunks` (`now` models `int(time.time())`). -/
def aggregate_completion_chunks (now : Int) (chunks : List Dict)
    (fallback_model : String) : CompletionResponse :=
  match chunks with
  | [] =>
    { id := .str ("cmpl-stream-" ++ toString now)
      object := "text_completion"
      created := .num now
      model := fallback_model
      choices := [{ index := 0, text := "", finish_reason := .null }]
      usage := .null }
  | first :: rest =>
    let last := rest.getLastD first
    let model := pyStr (pyOr (Dict.getJ first "model") (.str fallback_model))
    let acc := completionLoop (first :: rest)
    { id := pyOr (Dict.getJ first "id") (.str ("cmpl-stream-" ++ toString now))
      object := "text_completion"
      created := pyOr (Dict.getJ last "created") (pyOr (Dict.getJ first "created") (.num now))
      model := model
      choices := [{ index := 0, text := String.join acc.1, finish_reason := acc.2 }]
      usage := Dict.getJ last "usage" }

/-- `extract_error_message`: nested `error.message` string, else top-level
`message` string, else `None`. -/
def extract_error_message (payload : JVal) : Option String :=
  match payload with
  | .obj fs =>
    let nested := match Dict.getJ fs "error" with
      | .obj efs =>
        match Dict.getJ efs "message" with
        | .str m => some m
        | _ => none
      | _ => none
    match nested with
    | some m => some m
    | none =>
      match Dict.getJ fs "message" with
      | .str m => some m
      | _ => none
  | _ => none

/-- The synthesized `"DeepSeek API error (status N)"` message. -/
def synthStatusMessage (status : Int) : String :=
  "DeepSeek API error (status " ++ toString status ++ ")"

/-- The outcome of `json.loads` / `response.json()`: `none` models a raised
decode error; note `json.loads "null"` succeeds with `some JVal.null`, which
Python cannot tell apart from the failure case after the `try` block. -/
abbrev JsonParse := String → Option JVal

/-- `make_api_error`, over the response status and body text (`parse` models
`response.json()` on that text). -/
def make_api_error (parse : JsonParse) (status : Int) (text : String) :
    DeepSeekApiError :=
  let payload : JVal := match parse text with
    | some v => v
    | none => .null
  let message : Option String := match payload with
    | .null => some text
    | p => extract_error_message p
  let message : String := match message with
    | some m => if m.isEmpty then synthStatusMessage status else m
    | none => synthStatusMessage status
  { message := message, status := some status, payload := payload }

/-- `make_api_error_from_text` (`parse` models `json.loads`). -/
def make_api_error_from_text (parse : JsonParse) (status_code : Int) (text : String) :
    DeepSeekApiError :=
  let parsed := parse text
  let payload : JVal := match parsed with
    | some v => v
    | none => .null
  let message : String := match parsed with
    | none => text
    | some v =>
      match extract_error_message v with
      | some m => if m.isEmpty then text else m
      | none => text
  let message : String := if message.isEmpty then synthStatusMessage status_code else message
  { message := message, status := some status_code, payload := payload }

/-- The dict returned by a successful `create_chat_completion` fallback:
`{"from_model": ..., "to_model": ..., "reason": str(error)}`. -/
structure FallbackInfo where
  from_model : String
  to_model : String
  reason : String
deriving Repr

/-- The dict returned by `create_chat_completion`. -/
structure ChatCallResult where
  response : JVal
  fallback : Option FallbackInfo
  stream_chunk_count : Option Int
deriving Repr

/-- The dict returned by `create_completion`. -/
structure CompletionCallResult where
  response : JVal
  used_beta_base : Bool
  stream_chunk_count : Option Int
deriving Repr

/-- Oracle for `_chat_or_completion_request` on a fixed path: takes the
`base_url_override` and the payload, returns the
`(response, stream_chunk_count)` pair or raises a `DeepSeekApiError`. -/
abbrev Transport := Option String → Dict → Except DeepSeekApiError (JVal × Option Int)

/-- `str(payload.get("model") or self.config.default_model)`. -/
def requested_model (cfg : DeepSeekClientConfig) (payload : Dict) : String :=
  pyStr (pyOr (Dict.getJ payload "model") (.str cfg.default_model))

/-- The payload actually sent by `create_chat_completion` / `create_completion`
for a caller payload `p`: a copy of `p` with `model` set to
`str(p.get("model") or cfg.default_model)`. -/
def sent_payload (cfg : DeepSeekClientConfig) (payload : Dict) : Dict :=
  Dict.setKey payload "model" (.str (requested_model cfg payload))

/-- `DeepSeekApiClient.create_chat_completion` with the transport as an oracle
(the `dict(payload)` copy is the identity in this by-value embedding; the
aliasing claim is settled on the heap embedding below). -/
def create_chat_completion (cfg : DeepSeekClientConfig) (transport : Transport)
    (payload : Dict) : Except DeepSeekApiError ChatCallResult :=
  let model := requested_model cfg payload
  let payload := Dict.setKey payload "model" (.str model)
  match transport none payload with
  | .ok (response, n) =>
    .ok { response := response, fallback := none, stream_chunk_count := n }
  | .error error =>
    if should_reasoner_fallback cfg model error then
      let fallback_payload := Dict.setKey payload "model" (.str cfg.fallback_model)
      match transport none fallback_payload with
      | .ok (response, n) =>
        .ok { response := response
              fallback := some { from_model := model
                                 to_model := cfg.fallback_model
                                 reason := error.message }
              stream_chunk_count := n }
      | .error error2 => .error error2
    else .error error

/-- `DeepSeekApiClient.create_completion` with the transport as an oracle. -/
def create_completion (cfg : DeepSeekClientConfig) (transport : Transport)
    (payload : Dict) : Except DeepSeekApiError CompletionCallResult :=
  let payload := Dict.setKey payload "model" (.str (requested_model cfg payload))
  match transport none payload with
  | .ok (response, n) =>
    .ok { response := response, used_beta_base := false, stream_chunk_count := n }
  | .error error =>
    if should_retry_completion_on_beta error then
      match transport (some (build_beta_base_url cfg.base_url)) payload with
      | .ok (response, n) =>
        .ok { response := response, used_beta_base := true, stream_chunk_count := n }
      | .error error2 => .error error2
    else .error error

/-- The `chat_completion` tool: payload assembly from the optional parameters
(`messages` is the decoded messages list; floats and other opaque parameter
values are `JVal`s; `None` arguments model omitted parameters). -/
def chat_completion_payload (messages : JVal) (model : Option String) (stream : Bool)
    (temperature top_p : Option JVal) (max_tokens max_completion_tokens : Option Int)
    (stop response_format tools tool_choice thinking : Option JVal)
    (extra_body : Option Dict) : Dict :=
  let payload : Dict := [("messages", messages), ("stream", .bool stream)]
  let payload := match model with
    | some m => if m.isEmpty then payload else payload.setKey "model" (.str m)
    | none => payload
  let payload := match temperature with
    | some t => payload.setKey "temperature" t
    | none => payload
  let payload := match top_p with
    | some t => payload.setKey "top_p" t
    | none => payload
  let payload := match max_tokens with
    | some n => payload.setKey "max_tokens" (.num n)
    | none => payload
  let payload := match max_completion_tokens with
    | some n => payload.setKey "max_completion_tokens" (.num n)
    | none => payload
  let payload := match stop with
    | some s => payload.setKey "stop" s
    | none => payload
  let payload := match response_format with
    | some r => payload.setKey "response_format" r
    | none => payload
  let payload := match tools with
    | some t => payload.setKey "tools" t
    | none => payload
  let payload := match tool_choice with
    | some t => payload.setKey "tool_choice" t
    | none => payload
  let payload := match thinking with
    | some t => payload.setKey "thinking" t
    | none => payload
  match extra_body with
  | some extra => if extra.isEmpty then payload else payload.update extra
  | none => payload

/-- The `completion` tool: payload assembly from the optional parameters. -/
def completion_payload (prompt : String) (model : Option String) (stream : Bool)
    (suffix : Option String) (temperature top_p : Option JVal)
    (max_tokens : Option Int) (stop : Option JVal) (extra_body : Option Dict) : Dict :=
  let payload : Dict := [("prompt", .str prompt), ("stream", .bool stream)]
  let payload := match model with
    | some m => if m.isEmpty then payload else payload.setKey "model" (.str m)
    | none => payload
  let payload := match suffix with
    | some s => payload.setKey "suffix" (.str s)
    | none => payload
  let payload := match temperature with
    | some t => payload.setKey "temperature" t
    | none => payload
  let payload := match top_p with
    | some t => payload.setKey "top_p" t
    | none => payload
  let payload := match max_tokens with
    | some n => payload.setKey "max_tokens" (.num n)
    | none => payload
  let payload := match stop with
    | some s => payload.setKey "stop" s
    | none => payload
  match extra_body with
  | some extra => if extra.isEmpty then payload else payload.update extra
  | none => payload

/-- A heap of Python dict objects; an address is an index into the heap.  Used
to model the aliasing behaviour of `dict(payload)` copies. -/
abbrev Heap := List Dict

/-- A heap address. -/
abbrev Addr := Nat

/-- Dereference an address. -/
def Heap.read : Heap → Addr → Dict
  | [], _ => []
  | d :: _, 0 => d
  | _ :: t, n + 1 => Heap.read t n

/-- Allocate a fresh dict (its address is the old heap length). -/
def Heap.alloc (h : Heap) (d : Dict) : Heap := h ++ [d]

/-- Overwrite the dict at an address. -/
def Heap.write : Heap → Addr → Dict → Heap
  | [], _, _ => []
  | _ :: t, 0, d => d :: t
  | x :: t, n + 1, d => x :: Heap.write t n d

/-- `DeepSeekApiClient.create_chat_completion`, heap-level: the caller passes
the address of its payload dict; `payload = dict(payload)` allocates a copy
and rebinds the local, so the subsequent `payload["model"] = ...` writes to
the copy. -/
def create_chat_completion_heap (cfg : DeepSeekClientConfig) (transport : Transport)
    (h : Heap) (caller : Addr) : Except DeepSeekApiError ChatCallResult × Heap :=
  let model := requested_model cfg (h.read caller)
  let p := h.length
  let h := h.alloc (h.read caller)
  let h := h.write p ((h.read p).setKey "model" (.str model))
  match transport none (h.read p) with
  | .ok (response, n) =>
    (.ok { response := response, fallback := none, stream_chunk_count := n }, h)
  | .error error =>
    if should_reasoner_fallback cfg model error then
      let fp := h.length
      let h := h.alloc (h.read p)
      let h := h.write fp ((h.read fp).setKey "model" (.str cfg.fallback_model))
      match transport none (h.read fp) with
      | .ok (response, n) =>
        (.ok { response := response
               fallback := some { from_model := model
                                  to_model := cfg.fallback_model
                                  reason := error.message }
               stream_chunk_count := n }, h)
      | .error error2 => (.error error2, h)
    else (.error error, h)

/-- `DeepSeekApiClient.create_completion`, heap-level (the beta retry reuses
the same copied payload). -/
def create_completion_heap (cfg : DeepSeekClientConfig) (transport : Transport)
    (h : Heap) (caller : Addr) : Except DeepSeekApiError CompletionCallResult × Heap :=
  let p := h.length
  let h := h.alloc (h.read caller)
  let h := h.write p ((h.read p).setKey "model" (.str (requested_model cfg (h.read p))))
  match transport none (h.read p) with
  | .ok (response, n) =>
    (.ok { response := response, used_beta_base := false, stream_chunk_count := n }, h)
  | .error error =>
    if should_retry_completion_on_beta error then
      match transport (some (build_beta_base_url cfg.base_url)) (h.read p) with
      | .ok (response, n) =>
        (.ok { response := response, used_beta_base := true, stream_chunk_count := n }, h)
      | .error error2 => (.error error2, h)
    else (.error error, h)

/-- The `delta.content` string fragment of one choice, if any. -/
def contentOfChoice (choice : JVal) : Option String :=
  match (choice.getJ "delta").getJ "content" with
  | .str t => some t
  | _ => none

/-- The `delta.reasoning_content` string fragment of one choice, if any. -/
def reasoningOfChoice (choice : JVal) : Option String :=
  match (choice.getJ "delta").getJ "reasoning_content" with
  | .str t => some t
  | _ => none

/-- The `text` string fragment of one completion choice, if any. -/
def textOfChoice (choice : JVal) : Option String :=
  match choice.getJ "text" with
  | .str t => some t
  | _ => none

/-- Spec: the ordered `delta.content` string fragments of a chunk sequence
(all choices of every chunk, in arrival order). -/
def chatContentFragments (chunks : List Dict) : List String :=
  chunks.flatMap (fun chunk => (chunkChoices chunk).filterMap contentOfChoice)

/-- Spec: the ordered `delta.reasoning_content` string fragments. -/
def chatReasoningFragments (chunks : List Dict) : List String :=
  chunks.flatMap (fun chunk => (chunkChoices chunk).filterMap reasoningOfChoice)

/-- Spec: the ordered `text` string fragments of a completion chunk sequence. -/
def completionTextFragments (chunks : List Dict) : List String :=
  chunks.flatMap (fun chunk => (chunkChoices chunk).filterMap textOfChoice)

/-- The claim as written: the last non-null `finish_reason` value seen across
all chunks (`JVal.null` when none was seen). -/
def lastNonNullFinish (chunks : List Dict) : JVal :=
  chunks.foldl
    (fun acc chunk =>
      (chunkChoices chunk).foldl
        (fun acc choice =>
          match choice.getJ "finish_reason" with
          | .null => acc
          | v => v) acc)
    .null

/-- What the code computes: the last truthy `finish_reason` value seen across
all chunks (`JVal.null` when none was seen). -/
def lastTruthyFinish (chunks : List Dict) : JVal :=
  chunks.foldl
    (fun acc chunk =>
      (chunkChoices chunk).foldl
        (fun acc choice => pyOr (choice.getJ "finish_reason") acc) acc)
    .null

/-- A streamed chat chunk whose choice carries `finish_reason: "stop"` and
content `"A"`. -/
def cexChunkA : Dict :=
  [("choices", .arr [.obj [("delta", .obj [("content", .str "A")]),
                           ("finish_reason", .str "stop")]])]

/-- A streamed chat chunk whose choice carries the non-null but falsy
`finish_reason: ""`. -/
def cexChunkB : Dict :=
  [("choices", .arr [.obj [("finish_reason", .str "")]])]

/-- The claim as written for C5: `created` from the first chunk, falling back
to the last chunk's `created`, then the current time. -/
def claimCreated (now : Int) (first last : Dict) : JVal :=
  pyOr (Dict.getJ first "created") (pyOr (Dict.getJ last "created") (.num now))

/-- Claim-side (a): the nested `error.message` string field of a body. -/
def nestedErrorMessage (payload : JVal) : Option String :=
  match (payload.getJ "error").getJ "message" with
  | .str m => some m
  | _ => none

/-- Claim-side (b): the top-level `message` string field of a body. -/
def topLevelMessage (payload : JVal) : Option String :=
  match payload.getJ "message" with
  | .str m => some m
  | _ => none

/-- The extracted (a)/(b) message when it is non-empty (an empty extracted
string is falsy in Python and falls through). -/
def nonEmptyExtracted (payload : JVal) : Option String :=
  match extract_error_message payload with
  | some m => if m.isEmpty then none else some m
  | none => none

/-- The raw body text when non-empty, else the synthesized status message. -/
def textOrSynth (status : Int) (text : String) : String :=
  if text.isEmpty then synthStatusMessage status else text

/-- A JSON parse oracle defined on the single body `"1"` (a valid JSON number
carrying no `error.message` or `message` field). -/
def parseNum1 : JsonParse := fun t => if t = "1" then some (.num 1) else none

/-! ### Theorems -/

theorem normalize_eq_self_of_endswith_beta (s : String)
    (h : strEndsWith s "/beta" = true) : normalize_base_url s = s := by
  have h1 : "/beta".data <:+ s.data := of_decide_eq_true h
  obtain ⟨t, ht⟩ := h1
  have hrev : s.data.reverse = 'a' :: ('t' :: 'e' :: 'b' :: '/' :: t.reverse) := by
    rw [← ht, List.reverse_append]
    rfl
  unfold normalize_base_url
  rw [hrev, List.dropWhile_cons, if_neg (by decide), ← hrev, List.reverse_reverse]

theorem build_beta_endswith (x : String) :
    strEndsWith (build_beta_base_url x) "/beta" = true := by
  unfold build_beta_base_url
  by_cases h : strEndsWith (normalize_base_url x) "/beta" = true
  · simp [h]
  · simp only [Bool.not_eq_true] at h
    simp only [h, if_false]
    apply decide_eq_true
    show "/beta".data <:+ (normalize_base_url x ++ "/beta").data
    rw [String.data_append]
    exact List.suffix_append _ _

theorem build_beta_of_endswith (y : String) (h : strEndsWith y "/beta" = true) :
    build_beta_base_url y = y := by
  have hnorm := normalize_eq_self_of_endswith_beta y h
  simp only [build_beta_base_url, hnorm, h, if_true]

/-- C8: `build_beta_base_url` is idempotent, and a base already ending in
`/beta` is returned unchanged (no `/beta/beta` duplication). -/
theorem build_beta_base_url_idempotent (x : String) :
    build_beta_base_url (build_beta_base_url x) = build_beta_base_url x ∧
    (strEndsWith x "/beta" = true → build_beta_base_url x = x) :=
  ⟨build_beta_of_endswith _ (build_beta_endswith x),
   fun h => build_beta_of_endswith x h⟩

/-- C8 witness: concrete evaluations of the idempotence theorem. -/
theorem build_beta_base_url_idempotent_witness :
    build_beta_base_url (build_beta_base_url "https://api.deepseek.com/") =
      build_beta_base_url "https://api.deepseek.com/" ∧
    build_beta_base_url "https://api.deepseek.com/beta" = "https://api.deepseek.com/beta" :=
  ⟨(build_beta_base_url_idempotent "https://api.deepseek.com/").1,
   (build_beta_base_url_idempotent "https://api.deepseek.com/beta").2 (by decide)⟩

theorem getJ_pyOr_empty_obj (v : JVal) (k : String) :
    (pyOr v (.obj [])).getJ k = v.getJ k := by
  cases v with
  | obj fs => cases fs <;> simp [pyOr, JVal.truthy, JVal.getJ, Dict.getJ, List.lookup]
  | arr xs => cases xs <;> simp [pyOr, JVal.truthy, JVal.getJ, Dict.getJ, List.lookup]
  | bool b => cases b <;> simp [pyOr, JVal.truthy, JVal.getJ, Dict.getJ, List.lookup]
  | num n =>
    by_cases h : n = 0 <;> simp [pyOr, JVal.truthy, JVal.getJ, Dict.getJ, List.lookup, h]
  | str s =>
    by_cases h : s.isEmpty <;> simp [pyOr, JVal.truthy, JVal.getJ, Dict.getJ, List.lookup, h]
  | null => simp [pyOr, JVal.truthy, JVal.getJ, Dict.getJ, List.lookup]

theorem chatChunkStep_eq (acc : List String × List String × JVal) (choice : JVal) :
    chatChunkStep acc choice =
      (acc.1 ++ (contentOfChoice choice).toList,
       acc.2.1 ++ (reasoningOfChoice choice).toList,
       pyOr (choice.getJ "finish_reason") acc.2.2) := by
  simp only [chatChunkStep, contentOfChoice, reasoningOfChoice, getJ_pyOr_empty_obj]
  cases hc : (choice.getJ "delta").getJ "content" <;>
    cases hr : (choice.getJ "delta").getJ "reasoning_content" <;>
      simp [hc, hr]

theorem completionChunkStep_eq (acc : List String × JVal) (choice : JVal) :
    completionChunkStep acc choice =
      (acc.1 ++ (textOfChoice choice).toList,
       pyOr (choice.getJ "finish_reason") acc.2) := by
  unfold completionChunkStep textOfChoice
  cases hc : choice.getJ "text" <;> simp [hc]

theorem foldl_chatChunkStep (l : List JVal) (acc : List String × List String × JVal) :
    l.foldl chatChunkStep acc =
      (acc.1 ++ l.filterMap contentOfChoice,
       acc.2.1 ++ l.filterMap reasoningOfChoice,
       l.foldl (fun a c => pyOr (c.getJ "finish_reason") a) acc.2.2) := by
  induction l generalizing acc with
  | nil => simp
  | cons c t ih =>
    rw [List.foldl_cons, chatChunkStep_eq, ih]
    cases hc : contentOfChoice c <;> cases hr : reasoningOfChoice c <;>
      simp [List.filterMap_cons, hc, hr]

theorem foldl_completionChunkStep (l : List JVal) (acc : List String × JVal) :
    l.foldl completionChunkStep acc =
      (acc.1 ++ l.filterMap textOfChoice,
       l.foldl (fun a c => pyOr (c.getJ "finish_reason") a) acc.2) := by
  induction l generalizing acc with
  | nil => simp
  | cons c t ih =>
    rw [List.foldl_cons, completionChunkStep_eq, ih]
    cases hc : textOfChoice c <;> simp [List.filterMap_cons, hc]

theorem chatLoop_from (chunks : List Dict) (acc : List String × List String × JVal) :
    chunks.foldl (fun acc chunk => (chunkChoices chunk).foldl chatChunkStep acc) acc =
      (acc.1 ++ chatContentFragments chunks,
       acc.2.1 ++ chatReasoningFragments chunks,
       chunks.foldl
         (fun a chunk =>
           (chunkChoices chunk).foldl (fun a c => pyOr (c.getJ "finish_reason") a) a)
         acc.2.2) := by
  induction chunks generalizing acc with
  | nil => simp [chatContentFragments, chatReasoningFragments]
  | cons ch t ih =>
    rw [List.foldl_cons, foldl_chatChunkStep, ih]
    simp [chatContentFragments, chatReasoningFragments, List.flatMap_cons]

theorem completionLoop_from (chunks : List Dict) (acc : List String × JVal) :
    chunks.foldl (fun acc chunk => (chunkChoices chunk).foldl completionChunkStep acc) acc =
      (acc.1 ++ completionTextFragments chunks,
       chunks.foldl
         (fun a chunk =>
           (chunkChoices chunk).foldl (fun a c => pyOr (c.getJ "finish_reason") a) a)
         acc.2) := by
  induction chunks generalizing acc with
  | nil => simp [completionTextFragments]
  | cons ch t ih =>
    rw [List.foldl_cons, foldl_completionChunkStep, ih]
    simp [completionTextFragments, List.flatMap_cons]

theorem chatLoop_eq (chunks : List Dict) :
    chatLoop chunks =
      (chatContentFragments chunks, chatReasoningFragments chunks,
       lastTruthyFinish chunks) := by
  rw [chatLoop, chatLoop_from]
  rfl

theorem completionLoop_eq (chunks : List Dict) :
    completionLoop chunks =
      (completionTextFragments chunks, lastTruthyFinish chunks) := by
  rw [completionLoop, completionLoop_from]
  rfl

/-- C1 counterexample: on a stream whose last chunk carries the non-null but
falsy `finish_reason` value `""`, the aggregated `finish_reason` is not the
last non-null value (the code keeps `"stop"`, the last truthy value). -/
theorem finish_reason_not_last_non_null :
    (aggregate_chat_chunks 0 [cexChunkA, cexChunkB] "m").choices.headI.finish_reason ≠
      lastNonNullFinish [cexChunkA, cexChunkB] := by
  intro h
  have h1 : (aggregate_chat_chunks 0 [cexChunkA, cexChunkB] "m").choices.headI.finish_reason =
      JVal.str "stop" := rfl
  have h2 : lastNonNullFinish [cexChunkA, cexChunkB] = JVal.str "" := rfl
  rw [h1, h2] at h
  injection h with h
  exact absurd h (by decide)

/-- C1 (amended): for every chunk list, the aggregated chat content is the
ordered concatenation of the `delta.content` string fragments (null/absent
skipped) and the aggregated `finish_reason` is the last truthy (non-null,
non-falsy) value seen across chunks; `aggregate_completion_chunks` satisfies
the analogous property over `text` fragments. -/
theorem aggregate_content_is_ordered_concat (now : Int) (chunks : List Dict) (m : String) :
    ((aggregate_chat_chunks now chunks m).choices.headI.message.content =
        String.join (chatContentFragments chunks) ∧
      (aggregate_chat_chunks now chunks m).choices.headI.finish_reason =
        lastTruthyFinish chunks) ∧
    ((aggregate_completion_chunks now chunks m).choices.headI.text =
        String.join (completionTextFragments chunks) ∧
      (aggregate_completion_chunks now chunks m).choices.headI.finish_reason =
        lastTruthyFinish chunks) := by
  cases chunks with
  | nil =>
    refine ⟨⟨rfl, rfl⟩, rfl, rfl⟩
  | cons first rest =>
    refine ⟨⟨?_, ?_⟩, ?_, ?_⟩ <;>
      simp only [aggregate_chat_chunks, aggregate_completion_chunks, chatLoop_eq,
        completionLoop_eq, List.headI]

/-- C5 counterexample: with two chunks carrying `created` 1 and 2, the
aggregate takes the last chunk's `created` (2), not the first chunk's (1) as
the claim states. -/
theorem created_not_from_first_chunk :
    (aggregate_chat_chunks 0 [[("created", JVal.num 1)], [("created", JVal.num 2)]] "m").created ≠
      claimCreated 0 [("created", JVal.num 1)] [("created", JVal.num 2)] := by
  intro h
  have h1 : (aggregate_chat_chunks 0
      [[("created", JVal.num 1)], [("created", JVal.num 2)]] "m").created = JVal.num 2 := rfl
  have h2 : claimCreated 0 [("created", JVal.num 1)] [("created", JVal.num 2)] =
      JVal.num 1 := rfl
  rw [h1, h2] at h
  injection h with h
  exact absurd h (by decide)

/-- C5 (amended): for every non-empty chunk list, `id` and `model` come from
the first chunk (with the synthesized id and the supplied fallback model as
fallbacks), `created` comes from the last chunk falling back to the first
chunk's value and then the current time, and `usage` is the last chunk's
usage field (possibly null); analogously for completions. -/
theorem aggregate_header_fields (now : Int) (first : Dict) (rest : List Dict) (m : String) :
    ((aggregate_chat_chunks now (first :: rest) m).id =
        pyOr (Dict.getJ first "id") (.str ("chatcmpl-stream-" ++ toString now)) ∧
      (aggregate_chat_chunks now (first :: rest) m).model =
        pyStr (pyOr (Dict.getJ first "model") (.str m)) ∧
      (aggregate_chat_chunks now (first :: rest) m).created =
        pyOr (Dict.getJ (rest.getLastD first) "created")
          (pyOr (Dict.getJ first "created") (.num now)) ∧
      (aggregate_chat_chunks now (first :: rest) m).usage =
        Dict.getJ (rest.getLastD first) "usage") ∧
    ((aggregate_completion_chunks now (first :: rest) m).id =
        pyOr (Dict.getJ first "id") (.str ("cmpl-stream-" ++ toString now)) ∧
      (aggregate_completion_chunks now (first :: rest) m).model =
        pyStr (pyOr (Dict.getJ first "model") (.str m)) ∧
      (aggregate_completion_chunks now (first :: rest) m).created =
        pyOr (Dict.getJ (rest.getLastD first) "created")
          (pyOr (Dict.getJ first "created") (.num now)) ∧
      (aggregate_completion_chunks now (first :: rest) m).usage =
        Dict.getJ (rest.getLastD first) "usage") :=
  ⟨⟨rfl, rfl, rfl, rfl⟩, rfl, rfl, rfl, rfl⟩

/-- C7: aggregating the empty chunk list yields the synthesized empty
response: empty content/text, null finish_reason, null usage (and the
synthesized id/timestamp), rather than failing. -/
theorem aggregate_empty_chunks (now : Int) (m : String) :
    aggregate_chat_chunks now [] m =
      { id := .str ("chatcmpl-stream-" ++ toString now)
        object := "chat.completion"
        created := .num now
        model := m
        choices := [{ index := 0
                      message := { role := "assistant", content := "", reasoning_content := none }
                      finish_reason := .null }]
        usage := .null } ∧
    aggregate_completion_chunks now [] m =
      { id := .str ("cmpl-stream-" ++ toString now)
        object := "text_completion"
        created := .num now
        model := m
        choices := [{ index := 0, text := "", finish_reason := .null }]
        usage := .null } :=
  ⟨rfl, rfl⟩

/-- C9: for every chunk list, both aggregators return exactly one choice with
index 0, and the string fragments of all choices of every chunk are merged
into it in order. -/
theorem aggregate_single_choice_merges_all (now : Int) (chunks : List Dict) (m : String) :
    ((aggregate_chat_chunks now chunks m).choices.length = 1 ∧
      (aggregate_chat_chunks now chunks m).choices.headI.index = 0 ∧
      (aggregate_chat_chunks now chunks m).choices.headI.message.content =
        String.join (chunks.flatMap fun chunk =>
          (chunkChoices chunk).filterMap contentOfChoice)) ∧
    ((aggregate_completion_chunks now chunks m).choices.length = 1 ∧
      (aggregate_completion_chunks now chunks m).choices.headI.index = 0 ∧
      (aggregate_completion_chunks now chunks m).choices.headI.text =
        String.join (chunks.flatMap fun chunk =>
          (chunkChoices chunk).filterMap textOfChoice)) := by
  cases chunks with
  | nil => exact ⟨⟨rfl, rfl, rfl⟩, rfl, rfl, rfl⟩
  | cons first rest =>
    refine ⟨⟨?_, ?_, ?_⟩, ?_, ?_, ?_⟩ <;>
      simp only [aggregate_chat_chunks, aggregate_completion_chunks, chatLoop_eq,
        completionLoop_eq, chatContentFragments, completionTextFragments, List.headI]
    all_goals rfl

/-- C2: assuming the first transport attempt fails with `error`, the reasoner
fallback retry is attempted iff fallback is enabled, the requested model is
"deepseek-reasoner", the configured fallback model differs from it, and the
error has no status or a status in the retriable set; when triggered the call
is reissued once with the fallback model (its own failure propagating), when
not triggered the original error propagates.  In particular status 429 on
"deepseek-reasoner" (with fallback enabled and a distinct fallback model)
triggers, and the same error on any other model does not. -/
theorem reasoner_fallback_trigger_iff (cfg : DeepSeekClientConfig)
    (transport : Transport) (payload : Dict) (error : DeepSeekApiError)
    (hfail : transport none (sent_payload cfg payload) = .error error) :
    (should_reasoner_fallback cfg (requested_model cfg payload) error = true ↔
      (cfg.enable_reasoner_fallback = true ∧
        requested_model cfg payload = "deepseek-reasoner" ∧
        cfg.fallback_model ≠ requested_model cfg payload ∧
        (error.status = none ∨ ∃ s, error.status = some s ∧ s ∈ RETRIABLE_STATUS_CODES))) ∧
    (should_reasoner_fallback cfg (requested_model cfg payload) error = true →
      create_chat_completion cfg transport payload =
        (match transport none
            (Dict.setKey (sent_payload cfg payload) "model" (.str cfg.fallback_model)) with
         | .ok (r, n) =>
           .ok { response := r
                 fallback := some { from_model := requested_model cfg payload
                                    to_model := cfg.fallback_model
                                    reason := error.message }
                 stream_chunk_count := n }
         | .error e2 => .error e2)) ∧
    (should_reasoner_fallback cfg (requested_model cfg payload) error = false →
      create_chat_completion cfg transport payload = .error error) ∧
    (∀ msg p, cfg.enable_reasoner_fallback = true →
      cfg.fallback_model ≠ "deepseek-reasoner" →
      should_reasoner_fallback cfg "deepseek-reasoner" ⟨msg, some 429, p⟩ = true) ∧
    (∀ model msg p, model ≠ "deepseek-reasoner" →
      should_reasoner_fallback cfg model ⟨msg, some 429, p⟩ = false) := by
  refine ⟨?_, ?_, ?_, ?_, ?_⟩
  · unfold should_reasoner_fallback
    by_cases h1 : cfg.enable_reasoner_fallback <;>
      by_cases h2 : requested_model cfg payload = "deepseek-reasoner" <;>
        by_cases h3 : cfg.fallback_model = requested_model cfg payload <;>
          cases hs : error.status <;>
            simp [h1, h2, h3, hs]
  · intro htrig
    simp only [create_chat_completion]
    rw [show Dict.setKey payload "model" (JVal.str (requested_model cfg payload)) =
          sent_payload cfg payload from rfl, hfail]
    simp [htrig]
  · intro htrig
    simp only [create_chat_completion]
    rw [show Dict.setKey payload "model" (JVal.str (requested_model cfg payload)) =
          sent_payload cfg payload from rfl, hfail]
    simp [htrig]
  · intro msg p h1 h2
    simp [should_reasoner_fallback, h1, h2, RETRIABLE_STATUS_CODES]
  · intro model msg p hm
    simp [should_reasoner_fallback, hm]

/-- C2 witness: a 429 failure on "deepseek-reasoner" with fallback enabled and
a distinct fallback model triggers the retry; with a transport that always
fails, the retry's error propagates. -/
theorem reasoner_fallback_witness :
    create_chat_completion
      ⟨"key", "https://api.deepseek.com", 120000, "deepseek-chat", true, "deepseek-chat"⟩
      (fun _ _ => .error ⟨"rate limited", some 429, .null⟩)
      [("messages", .arr []), ("stream", .bool false), ("model", .str "deepseek-reasoner")] =
      .error ⟨"rate limited", some 429, .null⟩ := by
  have h := reasoner_fallback_trigger_iff
      ⟨"key", "https://api.deepseek.com", 120000, "deepseek-chat", true, "deepseek-chat"⟩
      (fun _ _ => .error ⟨"rate limited", some 429, .null⟩)
      [("messages", .arr []), ("stream", .bool false), ("model", .str "deepseek-reasoner")]
      ⟨"rate limited", some 429, .null⟩ rfl
  exact h.2.1 rfl

theorem should_retry_of_contains_beta (error : DeepSeekApiError)
    (h : strContainsSub (pyLower error.message) "beta" = true) :
    should_retry_completion_on_beta error = true := by
  simp only [should_retry_completion_on_beta, List.any_cons, List.any_nil,
    Bool.or_eq_true]
  exact Or.inl h

/-- C3: assuming the first plain-completion attempt fails with an error whose
message contains "beta" (case-insensitively), exactly one retry is issued
against the beta base path: on retry success the result carries
`used_beta_base = true`, and on retry failure the retry's error propagates
with no further attempt. -/
theorem completion_beta_retry_once (cfg : DeepSeekClientConfig)
    (transport : Transport) (payload : Dict) (error : DeepSeekApiError)
    (hfail : transport none (sent_payload cfg payload) = .error error)
    (hbeta : strContainsSub (pyLower error.message) "beta" = true) :
    (∀ r n, transport (some (build_beta_base_url cfg.base_url))
        (sent_payload cfg payload) = .ok (r, n) →
      create_completion cfg transport payload =
        .ok { response := r, used_beta_base := true, stream_chunk_count := n }) ∧
    (∀ e2, transport (some (build_beta_base_url cfg.base_url))
        (sent_payload cfg payload) = .error e2 →
      create_completion cfg transport payload = .error e2) := by
  have htrig := should_retry_of_contains_beta error hbeta
  constructor
  · intro r n hok
    simp only [create_completion]
    rw [show Dict.setKey payload "model" (JVal.str (requested_model cfg payload)) =
          sent_payload cfg payload from rfl, hfail]
    simp [htrig, hok]
  · intro e2 herr
    simp only [create_completion]
    rw [show Dict.setKey payload "model" (JVal.str (requested_model cfg payload)) =
          sent_payload cfg payload from rfl, hfail]
    simp [htrig, herr]

/-- C3 witness: a failure mentioning the beta base triggers exactly one retry
against the beta base, whose success carries `used_beta_base = true`. -/
theorem completion_beta_retry_witness :
    create_completion
      ⟨"key", "https://api.deepseek.com", 120000, "deepseek-chat", true, "deepseek-chat"⟩
      (fun base _ => match base with
        | none => .error ⟨"This model requires the BETA base url", some 400, .null⟩
        | some _ => .ok (.str "ok", none))
      [("prompt", .str "hi"), ("stream", .bool false)] =
      .ok { response := .str "ok", used_beta_base := true, stream_chunk_count := none } := by
  have h := completion_beta_retry_once
      ⟨"key", "https://api.deepseek.com", 120000, "deepseek-chat", true, "deepseek-chat"⟩
      (fun base _ => match base with
        | none => .error ⟨"This model requires the BETA base url", some 400, .null⟩
        | some _ => .ok (.str "ok", none))
      [("prompt", .str "hi"), ("stream", .bool false)]
      ⟨"This model requires the BETA base url", some 400, .null⟩
      rfl (by decide)
  exact h.1 (.str "ok") none rfl

/-- C6: when the chat payload builder receives only `messages` (every optional
parameter absent, `stream` at its default `false`), the payload sent to the
chat-completions endpoint contains exactly `messages`, `stream: false`, and
`model` set to the configured default model, and no other keys. -/
theorem chat_payload_only_messages (cfg : DeepSeekClientConfig) (messages : JVal) :
    sent_payload cfg
      (chat_completion_payload messages none false none none none none none none none
        none none none) =
      [("messages", messages), ("stream", .bool false),
       ("model", .str cfg.default_model)] := rfl

theorem make_api_error_message_nonnull (status : Int) (v : JVal) :
    (match extract_error_message v with
      | some m => if m.isEmpty then synthStatusMessage status else m
      | none => synthStatusMessage status) =
      (nonEmptyExtracted v).getD (synthStatusMessage status) := by
  cases hx : extract_error_message v with
  | none => simp [nonEmptyExtracted, hx]
  | some m => by_cases hm : m.isEmpty <;> simp [nonEmptyExtracted, hx, hm]

/-- C4 counterexample: for a non-2xx response with the parseable JSON body
`1` (no message fields), the claim requires the raw response text `"1"` as
the message, but `make_api_error` synthesizes the "status N" message
instead. -/
theorem api_error_message_not_raw_text :
    (make_api_error parseNum1 500 "1").message ≠ "1" := by decide

/-- C4 (amended): status and parsed body are always retained;
`extract_error_message` prefers the nested `error.message` string over the
top-level `message` string; `make_api_error_from_text` chooses the first
non-empty of (a)/(b), else the raw text, else the synthesized message; while
`make_api_error` uses the raw text only when the body is unparseable (or JSON
null), synthesizing the "status N" message when a parsed body yields no
non-empty (a)/(b) field. -/
theorem api_error_message_priority (parse : JsonParse) (status : Int) (text : String) :
    ((make_api_error parse status text).status = some status ∧
      (make_api_error_from_text parse status text).status = some status) ∧
    ((make_api_error parse status text).payload = (parse text).getD .null ∧
      (make_api_error_from_text parse status text).payload = (parse text).getD .null) ∧
    (∀ p : JVal, extract_error_message p =
      (match nestedErrorMessage p with
       | some m => some m
       | none => topLevelMessage p)) ∧
    ((make_api_error_from_text parse status text).message =
      (match (parse text).bind nonEmptyExtracted with
       | some m => m
       | none => textOrSynth status text)) ∧
    ((make_api_error parse status text).message =
      (match parse text with
       | none => textOrSynth status text
       | some .null => textOrSynth status text
       | some p => (nonEmptyExtracted p).getD (synthStatusMessage status))) := by
  refine ⟨⟨rfl, rfl⟩, ⟨?_, ?_⟩, ?_, ?_, ?_⟩
  · cases hp : parse text <;> simp [make_api_error, hp]
  · cases hp : parse text <;> simp [make_api_error_from_text, hp]
  · intro p
    cases p with
    | obj fs =>
      cases he : Dict.getJ fs "error" with
      | obj efs =>
        cases hm : Dict.getJ efs "message" <;>
          simp [extract_error_message, nestedErrorMessage, topLevelMessage, JVal.getJ,
            he, hm]
      | _ =>
        simp [extract_error_message, nestedErrorMessage, topLevelMessage, JVal.getJ, he]
    | _ =>
      simp [extract_error_message, nestedErrorMessage, topLevelMessage, JVal.getJ,
        Dict.getJ, List.lookup]
  · cases hp : parse text with
    | none => simp [make_api_error_from_text, textOrSynth, hp]
    | some v =>
      cases hx : extract_error_message v with
      | none => simp [make_api_error_from_text, nonEmptyExtracted, textOrSynth, hp, hx]
      | some m =>
        by_cases hm : m.isEmpty <;>
          simp [make_api_error_from_text, nonEmptyExtracted, textOrSynth, hp, hx, hm]
  · cases hp : parse text with
    | none => simp [make_api_error, textOrSynth, hp]
    | some v =>
      cases v with
      | null => simp [make_api_error, textOrSynth, hp]
      | bool b =>
        simpa [make_api_error, hp] using make_api_error_message_nonnull status (JVal.bool b)
      | num n =>
        simpa [make_api_error, hp] using make_api_error_message_nonnull status (JVal.num n)
      | str s =>
        simpa [make_api_error, hp] using make_api_error_message_nonnull status (JVal.str s)
      | arr xs =>
        simpa [make_api_error, hp] using make_api_error_message_nonnull status (JVal.arr xs)
      | obj fs =>
        simpa [make_api_error, hp] using make_api_error_message_nonnull status (JVal.obj fs)

theorem Heap.read_alloc_of_lt (h : Heap) (d : Dict) (a : Addr) (ha : a < h.length) :
    (h.alloc d).read a = h.read a := by
  induction h generalizing a with
  | nil => simp at ha
  | cons x t ih =>
    cases a with
    | zero => rfl
    | succ n => exact ih n (by simpa using ha)

theorem Heap.length_write (h : Heap) (b : Addr) (d : Dict) :
    (h.write b d).length = h.length := by
  induction h generalizing b with
  | nil => rfl
  | cons x t ih =>
    cases b with
    | zero => rfl
    | succ n => simp [Heap.write, ih]

theorem Heap.read_write_ne (h : Heap) (a b : Addr) (d : Dict) (hab : a ≠ b) :
    (h.write b d).read a = h.read a := by
  induction h generalizing a b with
  | nil => rfl
  | cons x t ih =>
    cases b with
    | zero =>
      cases a with
      | zero => exact absurd rfl hab
      | succ n => rfl
    | succ m =>
      cases a with
      | zero => rfl
      | succ n => exact ih n m (fun hnm => hab (congrArg Nat.succ hnm))

theorem heap_step_reads (h : Heap) (caller : Addr) (d e : Dict)
    (hc : caller < h.length) :
    (Heap.write (h.alloc d) h.length e).read caller = h.read caller ∧
    caller < (Heap.write (h.alloc d) h.length e).length := by
  constructor
  · rw [Heap.read_write_ne _ _ _ _ (Nat.ne_of_lt hc), Heap.read_alloc_of_lt _ _ _ hc]
  · rw [Heap.length_write]
    simp only [Heap.alloc, List.length_append, List.length_cons, List.length_nil,
      Nat.zero_add]
    exact Nat.lt_succ_of_lt hc

/-- C10: `create_chat_completion` and `create_completion` never mutate the
caller-supplied payload dict: on every exit path (success, fallback retry, or
propagated error) the dict at the caller's address is unchanged, because each
method writes only to freshly allocated copies. -/
theorem create_calls_do_not_mutate_caller_payload (cfg : DeepSeekClientConfig)
    (transport : Transport) (h : Heap) (caller : Addr) (hc : caller < h.length) :
    (create_chat_completion_heap cfg transport h caller).2.read caller =
      h.read caller ∧
    (create_completion_heap cfg transport h caller).2.read caller =
      h.read caller := by
  constructor
  · simp only [create_chat_completion_heap]
    split
    · exact (heap_step_reads h caller _ _ hc).1
    · split
      · split
        · exact ((heap_step_reads _ caller _ _
              (heap_step_reads h caller _ _ hc).2).1).trans
            (heap_step_reads h caller _ _ hc).1
        · exact ((heap_step_reads _ caller _ _
              (heap_step_reads h caller _ _ hc).2).1).trans
            (heap_step_reads h caller _ _ hc).1
      · exact (heap_step_reads h caller _ _ hc).1
  · simp only [create_completion_heap]
    split
    · exact (heap_step_reads h caller _ _ hc).1
    · split
      · split
        · exact (heap_step_reads h caller _ _ hc).1
        · exact (heap_step_reads h caller _ _ hc).1
      · exact (heap_step_reads h caller _ _ hc).1

/-- C10 witness: a concrete run (transport failing, fallback triggered) leaves
the caller's dict untouched. -/
theorem create_calls_do_not_mutate_caller_payload_witness :
    ((create_chat_completion_heap
        ⟨"key", "https://api.deepseek.com", 120000, "deepseek-chat", true, "deepseek-chat"⟩
        (fun _ _ => .error ⟨"rate limited", some 429, .null⟩)
        [[("model", .str "deepseek-reasoner")]] 0).2.read 0 =
      Heap.read [[("model", .str "deepseek-reasoner")]] 0) ∧
    ((create_completion_heap
        ⟨"key", "https://api.deepseek.com", 120000, "deepseek-chat", true, "deepseek-chat"⟩
        (fun _ _ => .error ⟨"use the beta base url", some 400, .null⟩)
        [[("prompt", .str "hi")]] 0).2.read 0 =
      Heap.read [[("prompt", .str "hi")]] 0) :=
  ⟨(create_calls_do_not_mutate_caller_payload
      ⟨"key", "https://api.deepseek.com", 120000, "deepseek-chat", true, "deepseek-chat"⟩
      (fun _ _ => .error ⟨"rate limited", some 429, .null⟩)
      [[("model", .str "deepseek-reasoner")]] 0 (by decide)).1,
   (create_calls_do_not_mutate_caller_payload
      ⟨"key", "https://api.deepseek.com", 120000, "deepseek-chat", true, "deepseek-chat"⟩
      (fun _ _ => .error ⟨"use the beta base url", some 400, .null⟩)
      [[("prompt", .str "hi")]] 0 (by decide)).2⟩
